import Mathlib

/-!
Verification of the AffinityGraph dashboard core: the retry/backoff executor,
the AI-gateway response post-processing, the ingestion-pipeline controller,
the deployment handler, and the debounced profiling flow, shallowly embedded
from the TypeScript source (src/geminiService.ts and the App controller).

Conventions of the embedding:
* asynchronous operations are modelled by their outcome (`Except` values);
  an oracle record supplies the outcome of each external AI call of a run;
* JavaScript exceptions are `AppErr` values threaded explicitly;
* JSON numbers are modelled as `Int` (no claim does arithmetic on them);
* ISO timestamp strings are modelled as a `Nat` clock value supplied to the
  functions that call `new Date()`;
* a JavaScript object built by key assignment is modelled as an
  insertion-ordered association list (`objInsert` / `buildRecord`).
-/

namespace AffinityGraph

/-- Substring test on character lists: JavaScript `String.includes`. -/
def listContainsSub (needle hay : List Char) : Bool :=
  hay.tails.any (fun t => needle.isPrefixOf t)

/-- JavaScript `hay.includes(needle)`. -/
def strContains (hay needle : String) : Bool :=
  listContainsSub needle.toList hay.toList

/-- JavaScript `toLowerCase`, applied character by character. -/
def strToLower (s : String) : String :=
  String.mk (s.toList.map Char.toLower)

/-- Error classification of `withRetry` (src/geminiService.ts lines 19-22):
the lower-cased message contains "429", "resource_exhausted" or "quota". -/
def isRateLimit (msg : String) : Bool :=
  let m := strToLower msg
  strContains m "429" || strContains m "resource_exhausted" || strContains m "quota"

/-- The fixed message of the QuotaError thrown when retries are exhausted
(src/geminiService.ts line 30). -/
def quotaExceededMessage : String := "Gemini API Quota Exceeded."

/-- Final outcome of a `withRetry` run: success, the distinguished QuotaError,
or an ordinary rethrown error. -/
inductive RetryOutcome (α : Type) where
  | ok (value : α)
  | quotaFailure (msg : String)
  | failure (msg : String)
  deriving DecidableEq, Repr

/-- Observable trace of a `withRetry` run: how many times the wrapped
operation was invoked, the backoff delays awaited (in order), and the final
outcome. -/
structure RetryTrace (α : Type) where
  attempts : Nat
  delays : List Nat
  outcome : RetryOutcome α
  deriving DecidableEq, Repr

/-- Loop body of `withRetry` (src/geminiService.ts lines 14-34), written as
structural recursion on the remaining retry budget `gas`; at loop entry
`gas = maxRetries - attempt`, so the source guard `attempt < maxRetries`
is `gas ≠ 0`.  `fn i` is the outcome of the wrapped operation on attempt
`i` (`Except.error msg` models a rejection whose error message is `msg`). -/
def withRetryGo (fn : Nat → Except String α) : Nat → Nat → RetryTrace α
  | attempt, gas =>
    match fn attempt with
    | .ok a => { attempts := 1, delays := [], outcome := .ok a }
    | .error msg =>
      if isRateLimit msg then
        match gas with
        | g + 1 =>
          let rest := withRetryGo fn (attempt + 1) g
          { attempts := rest.attempts + 1,
            delays := 2 ^ attempt * 2000 :: rest.delays,
            outcome := rest.outcome }
        | 0 => { attempts := 1, delays := [], outcome := .quotaFailure quotaExceededMessage }
      else { attempts := 1, delays := [], outcome := .failure msg }

/-- The retry executor `withRetry` (src/geminiService.ts lines 12-36).
The source defaults `maxRetries` to `3`. -/
def withRetry (fn : Nat → Except String α) (maxRetries : Nat) : RetryTrace α :=
  withRetryGo fn 0 maxRetries

/-- The source default for the `maxRetries` parameter of `withRetry`. -/
def defaultMaxRetries : Nat := 3

/-- Systematic sampling of the ingestion pipeline
(src App controller, handleCustomDataLoaded):
`stride = max(1, floor(N/50))`, keep every stride-th record, truncate to 50. -/
def sampleRecords (cleanedData : List α) : List α :=
  let stride := max 1 (cleanedData.length / 50)
  (((cleanedData.enum).filter (fun p => p.1 % stride == 0)).map Prod.snd).take 50

/-! ## JavaScript object model

`synthesizeDomainDNA` and `discoverSegments` rebuild a mapping from a returned
(key, value) pair list by JavaScript property assignment.  A JavaScript object
is modelled as an insertion-ordered association list. -/

/-- JavaScript object assignment `obj[k] = v`: overwrite in place when the key
already exists, otherwise append the new property. -/
def objInsert (m : List (String × Int)) (k : String) (v : Int) : List (String × Int) :=
  if m.any (fun p => p.1 == k) then
    m.map (fun p => if p.1 == k then (k, v) else p)
  else m ++ [(k, v)]

/-- The record-reconstruction loops of src/geminiService.ts (lines 150-153,
`behavioralWeights`, and 207-208, `affinityScores`): fold a (key, value) pair
list into an object by repeated assignment, starting from the empty object. -/
def buildRecord (pairs : List (String × Int)) : List (String × Int) :=
  pairs.foldl (fun m p => objInsert m p.1 p.2) []

/-- Property lookup on the object model. -/
def recLookup (m : List (String × Int)) (k : String) : Option Int :=
  (m.find? (fun p => p.1 == k)).map Prod.snd

/-- The value of the last pair of `pairs` that carries key `k`, if any. -/
def lastBinding (pairs : List (String × Int)) (k : String) : Option Int :=
  (pairs.reverse.find? (fun p => p.1 == k)).map Prod.snd

/-! ## Data model (src/geminiService.ts response contracts and ../types) -/

/-- One entry of a campaign manifest activation plan. -/
structure ActivationStep where
  step : String
  status : String
  delay : String
  deriving DecidableEq, Repr

/-- Projected metrics of a campaign manifest. -/
structure ProjectedMetrics where
  conversionLift : String
  roi : String
  reach : String
  volatilityRisk : String
  deriving DecidableEq, Repr

/-- Campaign manifest returned by `generateCampaignManifest`. -/
structure CampaignManifest where
  activationPlan : List ActivationStep
  technicalHook : String
  adCopyDraft : String
  implementationJson : String
  projectedMetrics : ProjectedMetrics
  deriving DecidableEq, Repr

/-- KPI block of a shopper segment. -/
structure KPIs where
  estimatedAOV : String
  clvPotential : String
  retentionLikelihood : Int
  churnPropensity : Int
  deriving DecidableEq, Repr

/-- A raw segment as parsed from the Discover-Segments JSON response: exactly
the fields of the declared response schema (src/geminiService.ts lines
171-200); `affinityScores` is still the raw (key, value) pair list, and there
is no status, manifest or timestamp field. -/
structure RawSegment where
  id : String
  name : String
  description : String
  behavioralRationale : String
  characteristics : List String
  affinityScores : List (String × Int)
  kpis : KPIs
  growthTrend : String
  preferredChannels : List String
  sampleSize : Int
  patternStabilityIndex : Int
  volatilityIndex : Int
  deriving DecidableEq, Repr

/-- A shopper segment as held by the controller: the raw fields plus the
reconstructed affinity-score object, a status, an optional manifest and a
last-updated timestamp. -/
structure ShopperSegment where
  id : String
  name : String
  description : String
  behavioralRationale : String
  characteristics : List String
  affinityScores : List (String × Int)
  kpis : KPIs
  growthTrend : String
  preferredChannels : List String
  sampleSize : Int
  patternStabilityIndex : Int
  volatilityIndex : Int
  status : String
  manifest : Option CampaignManifest
  lastUpdated : Nat
  deriving DecidableEq, Repr

/-- The post-processing `discoverSegments` applies to one parsed segment
(src/geminiService.ts lines 206-209): spread the raw fields, rebuild
`affinityScores` from the pair list, stamp status "Discovery" and a fresh
timestamp.  The raw response has no manifest field, so the manifest of the result
is absent. -/
def mapRawSegment (now : Nat) (s : RawSegment) : ShopperSegment :=
  { id := s.id
    name := s.name
    description := s.description
    behavioralRationale := s.behavioralRationale
    characteristics := s.characteristics
    affinityScores := buildRecord s.affinityScores
    kpis := s.kpis
    growthTrend := s.growthTrend
    preferredChannels := s.preferredChannels
    sampleSize := s.sampleSize
    patternStabilityIndex := s.patternStabilityIndex
    volatilityIndex := s.volatilityIndex
    status := "Discovery"
    manifest := none
    lastUpdated := now }

/-- The mapping `discoverSegments` applies to the whole parsed result array
(src/geminiService.ts lines 205-210). -/
def discoverSegmentsPost (now : Nat) (results : List RawSegment) : List ShopperSegment :=
  results.map (mapRawSegment now)

/-- Raw Domain-DNA synthesis result as parsed from the JSON response
(src/geminiService.ts lines 119-146): `behavioralWeights` is the raw
(feature, weight) pair list. -/
structure RawDomainDNA where
  domainName : String
  coreLexicon : List String
  keyBehavioralRules : List String
  behavioralWeights : List (String × Int)
  latentCorrelators : List (String × String × String)
  segmentPrototypes : List String
  historicalFrictionPoints : List String
  maturityIndex : Int
  deriving DecidableEq, Repr

/-- The learned domain context ("Domain DNA") held by the controller. -/
structure LearnedDomainContext where
  domainName : String
  coreLexicon : List String
  keyBehavioralRules : List String
  behavioralWeights : List (String × Int)
  latentCorrelators : List (String × String × String)
  segmentPrototypes : List String
  historicalFrictionPoints : List String
  maturityIndex : Int
  lastLearnedDate : Nat
  version : String
  deriving DecidableEq, Repr

/-- The post-processing `synthesizeDomainDNA` applies to the parsed result
(src/geminiService.ts lines 149-154): rebuild `behavioralWeights` from the
pair list, stamp the learn date and the fixed version tag. -/
def synthesizeDomainDNAPost (now : Nat) (dnaResult : RawDomainDNA) : LearnedDomainContext :=
  { domainName := dnaResult.domainName
    coreLexicon := dnaResult.coreLexicon
    keyBehavioralRules := dnaResult.keyBehavioralRules
    behavioralWeights := buildRecord dnaResult.behavioralWeights
    latentCorrelators := dnaResult.latentCorrelators
    segmentPrototypes := dnaResult.segmentPrototypes
    historicalFrictionPoints := dnaResult.historicalFrictionPoints
    maturityIndex := dnaResult.maturityIndex
    lastLearnedDate := now
    version := "2.4.0-PRO" }

/-- A synthetic review record. -/
structure Review where
  id : String
  rating : Int
  text : String
  category : String
  deriving DecidableEq, Repr

/-- A merchandising recommendation. -/
structure MerchandisingRecommendation where
  title : String
  targetSegment : String
  action : String
  rationale : String
  roiProjection : String
  metricLift : String × String
  strategyType : String
  confidence : Int
  complexity : String
  deriving DecidableEq, Repr

/-- Persona profiling result of `getPersonaDetails`. -/
structure PersonaDetails where
  backstory : String
  motivation : String
  churnRisks : String
  deriving DecidableEq, Repr

/-- Friction profiling result of `analyzeFriction`. -/
structure FrictionData where
  frictionScore : Int
  primaryGaps : List String
  deriving DecidableEq, Repr

/-! ## Orchestration controller (App component state and handlers) -/

/-- Pipeline progress states of the App controller. -/
inductive ProgressStep where
  | idle
  | parsing
  | scrubbing
  | sampling
  | analyzing
  deriving DecidableEq, Repr

/-- User-visible error classification ({ type: quota | general }). -/
inductive ErrorKind where
  | quota
  | general
  deriving DecidableEq, Repr

/-- The user-visible error state ({ type, message }). -/
structure AppError where
  kind : ErrorKind
  message : String
  deriving DecidableEq, Repr

/-- A JavaScript exception as observed by the controller: either the
distinguished QuotaError (the instanceof check of the catch blocks) or any
other thrown error. -/
inductive AppException where
  | quotaError (msg : String)
  | otherError (msg : String)
  deriving DecidableEq, Repr

/-- Controller state: the React state of the App component plus the three
durable storage entries (localStorage keys neural_dna, affinity_segments and
active_reviews). -/
structure AppState where
  learnedContext : Option LearnedDomainContext
  segments : List ShopperSegment
  activeReviews : List Review
  selectedSegmentId : String
  recommendations : List MerchandisingRecommendation
  personaDetails : Option PersonaDetails
  frictionData : Option FrictionData
  error : Option AppError
  deploymentToast : Option String
  loading : Bool
  profilingLoading : Bool
  progressStep : ProgressStep
  logs : List String
  storedDna : Option LearnedDomainContext
  storedSegments : Option (List ShopperSegment)
  storedReviews : Option (List Review)
  deriving DecidableEq, Repr

/-- addLog (src App controller): keep the last four entries and append.
The wall-clock prefix of each entry is not modelled. -/
def addLog (logs : List String) (msg : String) : List String :=
  logs.drop (logs.length - 4) ++ [msg]

/-- Outcomes of the external AI-gateway calls of one ingestion-pipeline run;
each call either returns its parsed value or throws. -/
structure PipelineOracle where
  dna : Except AppException RawDomainDNA
  discover : Except AppException (List RawSegment)
  reviews : Except AppException (List Review)
  recs : Except AppException (List MerchandisingRecommendation)

/-- The catch blocks of the controller flows: only a QuotaError updates the
user-visible error state; any other exception is swallowed. -/
def applyCatch (e : AppException) (s : AppState) : AppState :=
  match e with
  | .quotaError m => { s with error := some { kind := .quota, message := m } }
  | .otherError _ => s

/-- The shared finally blocks: stop loading and return to idle. -/
def applyFinally (s : AppState) : AppState :=
  { s with loading := false, progressStep := .idle }

/-- fetchInsights (src App controller): set loading, clear the error state,
refresh recommendations; only a QuotaError surfaces; the finally block always
stops loading and returns to idle.  This function never rethrows. -/
def fetchInsights (recsResult : Except AppException (List MerchandisingRecommendation))
    (s : AppState) : AppState :=
  let s1 := { s with loading := true, error := none }
  match recsResult with
  | .ok recs => applyFinally { s1 with recommendations := recs }
  | .error e => applyFinally (applyCatch e s1)

/-- handleCustomDataLoaded (src App controller): the ingestion pipeline.
Sampling, DNA synthesis, segment discovery, review synthesis, state and
storage replacement, selection of the first discovered segment, and the
recommendation refresh, with the catch/finally structure of the source.
Indexing `discovered[0].id` on an empty discovery result throws a TypeError,
modelled as an `otherError` reaching the catch block. -/
def handleCustomDataLoaded {ρ : Type} (o : PipelineOracle) (now : Nat)
    (cleanedData : List ρ) (_headers : List String) (s : AppState) : AppState :=
  let s1 := { s with loading := true, error := none,
                     logs := addLog s.logs "Ingesting telemetry stream..." }
  let s2 := { s1 with progressStep := .parsing }
  let _sample := sampleRecords cleanedData
  applyFinally
    (match o.dna with
     | .error e => applyCatch e s2
     | .ok rawDna =>
       let newDna := synthesizeDomainDNAPost now rawDna
       let s3 := { s2 with learnedContext := some newDna, storedDna := some newDna,
                           progressStep := .analyzing }
       match o.discover with
       | .error e => applyCatch e s3
       | .ok rawSegments =>
         let discovered := discoverSegmentsPost now rawSegments
         match o.reviews with
         | .error e => applyCatch e s3
         | .ok contextReviews =>
           let s4 := { s3 with segments := discovered, activeReviews := contextReviews,
                               storedSegments := some discovered,
                               storedReviews := some contextReviews }
           match discovered with
           | [] =>
             applyCatch (.otherError "TypeError: Cannot read properties of undefined") s4
           | first :: _ =>
             let s5 := { s4 with selectedSegmentId := first.id,
                                 logs := addLog s4.logs "Synthesis complete." }
             fetchInsights o.recs s5)

/-- A partial segment update (Partial of ShopperSegment): fields present
overwrite the fields of the segment on spread. -/
structure SegmentUpdates where
  status : Option String
  name : Option String
  manifest : Option CampaignManifest
  deriving DecidableEq, Repr

/-- JavaScript object spread of a partial update over a segment. -/
def applyUpdates (seg : ShopperSegment) (u : SegmentUpdates) : ShopperSegment :=
  { seg with
      status := u.status.getD seg.status,
      name := u.name.getD seg.name,
      manifest := match u.manifest with | some m => some m | none => seg.manifest }

/-- handleSegmentUpdate (src App controller): a status update to
"Active Strategy" on an existing segment triggers manifest generation; on
success the updates and the manifest are merged into the target segment and a
toast is shown; on failure only a log entry is written.  Every other update is
merged directly. -/
def handleSegmentUpdate (manifestResult : Except AppException CampaignManifest)
    (id : String) (updates : SegmentUpdates) (s : AppState) : AppState :=
  match s.segments.find? (fun t => t.id == id), updates.status == some "Active Strategy" with
  | some seg, true =>
    let s1 := { s with logs := addLog s.logs "DEPLOYMENT INITIATED: Synthesizing Tactical Manifest." }
    match manifestResult with
    | .ok manifest =>
      let s2 := { s1 with segments := s1.segments.map (fun (t : ShopperSegment) =>
          if t.id == id then { applyUpdates t updates with manifest := some manifest } else t) }
      { s2 with logs := addLog s2.logs "DEPLOYMENT COMPLETE: manifest loaded into Tactical Overlay.",
                deploymentToast := some seg.name }
    | .error _ => { s1 with logs := addLog s1.logs "DEPLOYMENT FAILED: AI synthesis interrupted." }
  | _, _ =>
    { s with segments := s.segments.map (fun t => if t.id == id then applyUpdates t updates else t) }

/-- activeSegment (src App controller): the segment matching the current
selection, falling back to the first segment. -/
def activeSegment (s : AppState) : Option ShopperSegment :=
  match s.segments.find? (fun t => t.id == s.selectedSegmentId) with
  | some seg => some seg
  | none => s.segments.head?

/-! ## Reactive profiling: debounce and in-flight results -/

/-- Debounce semantics of the profiling effect (src App controller, the
500-unit setTimeout with clearTimeout cleanup), over a chronological list of
dependency-change events (time, selected segment id): a scheduled timer is
cancelled when the next change arrives strictly within 500 time units of it,
otherwise it fires; the final timer always fires. -/
def debounceFires : List (Nat × String) → List (Nat × String)
  | [] => []
  | [e] => [e]
  | e1 :: e2 :: rest => (if e2.1 < e1.1 + 500 then [] else [e1]) ++ debounceFires (e2 :: rest)

/-- A profiling request pair: the targets of the concurrently issued
Get-Persona-Details and Analyze-Friction calls. -/
structure RequestPair where
  personaTarget : String
  frictionTarget : String
  deriving DecidableEq, Repr

/-- The request pairs actually issued for a chronological list of
selection-change events: one pair per timer that fires, for the segment
captured when that effect ran. -/
def issuedPairs (events : List (Nat × String)) : List RequestPair :=
  (debounceFires events).map (fun e => { personaTarget := e.2, frictionTarget := e.2 })

/-- Events of the in-flight result handling of the profiling effect: the
selection changes, or the responses of a previously issued request pair
(computed for segment `origin`) arrive. -/
inductive ProfEvent where
  | select (segId : String)
  | arrive (origin : String) (persona : PersonaDetails) (friction : FrictionData)
  deriving DecidableEq, Repr

/-- Profiling-relevant state: the current selection, the applied profile data,
and — as a specification-only ghost field — the segment the currently applied
data was computed for. -/
structure ProfState where
  selectedSegmentId : String
  personaDetails : Option PersonaDetails
  frictionData : Option FrictionData
  appliedOrigin : Option String
  deriving DecidableEq, Repr

/-- One step of the profiling flow.  `arrive` models lines 137-142 of the App
controller: the awaited results are applied unconditionally —
setPersonaDetails/setFrictionData run with no check of the originating
segment against the current selection. -/
def profStep (s : ProfState) : ProfEvent → ProfState
  | .select segId => { s with selectedSegmentId := segId }
  | .arrive origin p f =>
      { s with personaDetails := some p, frictionData := some f,
               appliedOrigin := some origin }

/-- Run of the profiling flow over a chronological event list. -/
def profRun (s : ProfState) (events : List ProfEvent) : ProfState :=
  events.foldl profStep s

/-! ## Concrete example values (used to instantiate the theorems) -/

/-- A concrete KPI block. -/
def kpisExample : KPIs :=
  { estimatedAOV := "$120", clvPotential := "High",
    retentionLikelihood := 70, churnPropensity := 30 }

/-- A concrete raw segment, with a duplicate affinity key. -/
def rawSegExample : RawSegment :=
  { id := "seg-1", name := "Loyalists", description := "desc",
    behavioralRationale := "rationale", characteristics := ["fast"],
    affinityScores := [("Apparel", 80), ("Apparel", 90)], kpis := kpisExample,
    growthTrend := "Rising", preferredChannels := ["email"], sampleSize := 120,
    patternStabilityIndex := 85, volatilityIndex := 12 }

/-- A concrete segment: the discovery mapping of `rawSegExample` at time 5. -/
def segExample : ShopperSegment := mapRawSegment 5 rawSegExample

/-- A concrete campaign manifest. -/
def manifestExample : CampaignManifest :=
  { activationPlan := [{ step := "init", status := "pending", delay := "0ms" }],
    technicalHook := "hook()", adCopyDraft := "copy", implementationJson := "cfg",
    projectedMetrics := { conversionLift := "4%", roi := "2x", reach := "10k",
                          volatilityRisk := "low" } }

/-- A concrete raw DNA result, with a duplicate weight key. -/
def dnaRawExample : RawDomainDNA :=
  { domainName := "Retail", coreLexicon := ["lex"], keyBehavioralRules := ["rule"],
    behavioralWeights := [("spend", 5), ("spend", 7)],
    latentCorrelators := [("a", "b", "c")], segmentPrototypes := ["proto"],
    historicalFrictionPoints := ["friction"], maturityIndex := 60 }

/-- A concrete review. -/
def reviewExample : Review :=
  { id := "r1", rating := 4, text := "good", category := "UX" }

/-- Concrete profiling results. -/
def personaExample : PersonaDetails :=
  { backstory := "story", motivation := "motive", churnRisks := "risk" }

/-- Concrete friction analysis result. -/
def frictionExample : FrictionData :=
  { frictionScore := 42, primaryGaps := ["checkout"] }

/-- A concrete controller state holding one discovered segment. -/
def appStateExample : AppState :=
  { learnedContext := none, segments := [segExample], activeReviews := [reviewExample],
    selectedSegmentId := "seg-1", recommendations := [], personaDetails := none,
    frictionData := none, error := none, deploymentToast := none, loading := false,
    profilingLoading := false, progressStep := .idle, logs := [],
    storedDna := none, storedSegments := none, storedReviews := none }

/-- An oracle whose Discover-Segments call returns the empty array and whose
other calls succeed. -/
def oracleEmptyDiscovery : PipelineOracle :=
  { dna := .ok dnaRawExample, discover := .ok [], reviews := .ok [reviewExample],
    recs := .ok [] }

/-- An oracle whose DNA-synthesis call throws the distinguished QuotaError. -/
def oracleQuotaOnDna : PipelineOracle :=
  { dna := .error (.quotaError quotaExceededMessage), discover := .ok [rawSegExample],
    reviews := .ok [reviewExample], recs := .ok [] }

/-! ## Retry executor lemmas -/

/-- When every attempt fails with a rate-limit-classified message, the loop
runs its whole budget: `gas + 1` attempts, one backoff delay per non-final
attempt, and the distinguished quota failure at the end. -/
theorem withRetryGo_allRateLimit (msgs : Nat → String)
    (h : ∀ i, isRateLimit (msgs i) = true) :
    ∀ gas attempt,
      withRetryGo (α := α) (fun i => Except.error (msgs i)) attempt gas =
        { attempts := gas + 1,
          delays := (List.range gas).map (fun j => 2 ^ (attempt + j) * 2000),
          outcome := .quotaFailure quotaExceededMessage } := by
  intro gas
  induction gas with
  | zero =>
    intro attempt
    rw [withRetryGo]
    simp only [h, if_true, List.range_zero, List.map_nil]
  | succ g ih =>
    intro attempt
    rw [withRetryGo]
    simp only [h, if_true]
    rw [ih (attempt + 1)]
    have hfun : ((fun j => 2 ^ (attempt + j) * 2000) ∘ Nat.succ)
        = (fun j => 2 ^ (attempt + 1 + j) * 2000) := by
      funext j
      have hj : attempt + Nat.succ j = attempt + 1 + j := by omega
      simp only [Function.comp_apply, hj]
    have hdel : (List.range (g + 1)).map (fun j => 2 ^ (attempt + j) * 2000)
        = 2 ^ attempt * 2000 :: (List.range g).map (fun j => 2 ^ (attempt + 1 + j) * 2000) := by
      rw [List.range_succ_eq_map, List.map_cons, List.map_map, hfun, Nat.add_zero]
    rw [hdel]

/-- C1 (amended): for every operation failing on every attempt with a
rate-limit-classified error and every maxRetries, `withRetry` makes exactly
maxRetries+1 attempts, waits 2^attempt * 2000 after each of attempts
0..maxRetries-1, and fails with the distinguished quota condition carrying
the fixed message "Gemini API Quota Exceeded.", which is independent of the
original error text.  (The original claim added that the original error text
is never present in the thrown message; that clause fails, e.g. for the
original message "Quota" — see the counterexample.) -/
theorem c1_retry_exhaustion_amended {α : Type} (msgs : Nat → String)
    (h : ∀ i, isRateLimit (msgs i) = true) (maxRetries : Nat) :
    withRetry (α := α) (fun i => Except.error (msgs i)) maxRetries =
      { attempts := maxRetries + 1,
        delays := (List.range maxRetries).map (fun a => 2 ^ a * 2000),
        outcome := .quotaFailure quotaExceededMessage } := by
  unfold withRetry
  rw [withRetryGo_allRateLimit msgs h maxRetries 0]
  simp only [Nat.zero_add]

/-- Witness for C1 (amended) at the always-failing message "429 RESOURCE_EXHAUSTED"
with the default retry budget of 3. -/
theorem c1_retry_exhaustion_witness :
    withRetry (α := Unit) (fun _ => Except.error "429 RESOURCE_EXHAUSTED") defaultMaxRetries =
      { attempts := 4, delays := [2000, 4000, 8000],
        outcome := .quotaFailure quotaExceededMessage } := by
  have h429 : isRateLimit "429 RESOURCE_EXHAUSTED" = true := by decide
  have h1 := c1_retry_exhaustion_amended (α := Unit)
    (fun _ => "429 RESOURCE_EXHAUSTED") (fun _ => h429) defaultMaxRetries
  simpa [defaultMaxRetries] using h1

/-- C1 counterexample: the operation always failing with message "Quota" is
rate-limit classified, exhausts the default budget with the stated trace, and
yet the original error text "Quota" IS present in the thrown fixed message
"Gemini API Quota Exceeded.", refuting the final clause of the claim. -/
theorem c1_counterexample :
    isRateLimit "Quota" = true
    ∧ withRetry (α := Unit) (fun _ => Except.error "Quota") defaultMaxRetries =
        { attempts := 4, delays := [2000, 4000, 8000],
          outcome := .quotaFailure quotaExceededMessage }
    ∧ strContains quotaExceededMessage "Quota" = true := by
  refine ⟨by decide, by decide, by decide⟩

/-- C2: for every operation whose first failure is not rate-limit classified,
`withRetry` performs a single attempt, no delay, and propagates the original
error message unchanged. -/
theorem c2_nonRateLimit_immediate {α : Type} (fn : Nat → Except String α)
    (m : String) (maxRetries : Nat)
    (h0 : fn 0 = Except.error m) (hm : isRateLimit m = false) :
    withRetry fn maxRetries = { attempts := 1, delays := [], outcome := .failure m } := by
  unfold withRetry
  cases maxRetries with
  | zero => rw [withRetryGo.eq_2, h0]; simp [hm]
  | succ g => rw [withRetryGo.eq_1, h0]; simp [hm]

/-- Witness for C2 at a JSON parse failure message and the default budget. -/
theorem c2_nonRateLimit_witness :
    withRetry (α := Unit) (fun _ => Except.error "SyntaxError: Unexpected token < in JSON")
        defaultMaxRetries =
      { attempts := 1, delays := [],
        outcome := .failure "SyntaxError: Unexpected token < in JSON" } :=
  c2_nonRateLimit_immediate _ _ _ rfl (by decide)

/-! ## Systematic-sampling lemmas -/

/-- Arithmetic step for the ceiling division `(n + s - 1) / s`: adding one
more candidate index increments the count exactly when `s` divides `n`. -/
theorem ceil_div_step {s : Nat} (hs : 0 < s) (n : Nat) :
    (n + s) / s = (n + s - 1) / s + (if n % s = 0 then 1 else 0) := by
  obtain ⟨q, r, hr, rfl⟩ : ∃ q r, r < s ∧ n = s * q + r :=
    ⟨n / s, n % s, Nat.mod_lt n hs, (Nat.div_add_mod n s).symm⟩
  have hmod : (s * q + r) % s = r := by
    rw [Nat.mul_add_mod, Nat.mod_eq_of_lt hr]
  rw [hmod]
  by_cases h0 : r = 0
  · subst h0
    have h1 : s * q + 0 + s = s * (q + 1) := by rw [Nat.mul_succ]; omega
    have h2 : s * q + 0 + s - 1 = s * q + (s - 1) := by omega
    rw [h2, h1, Nat.mul_div_cancel_left _ hs, Nat.mul_add_div hs,
        Nat.div_eq_of_lt (by omega), if_pos rfl]
  · have h1 : s * q + r + s = s * (q + 1) + r := by rw [Nat.mul_succ]; omega
    have h2 : s * q + r + s - 1 = s * (q + 1) + (r - 1) := by rw [Nat.mul_succ]; omega
    rw [h2, h1, Nat.mul_add_div hs, Nat.mul_add_div hs,
        Nat.div_eq_of_lt hr, Nat.div_eq_of_lt (by omega), if_neg h0]

/-- Number of indices below `n` that are multiples of `s`, as a ceiling
division. -/
theorem length_filter_mod {s : Nat} (hs : 0 < s) :
    ∀ n, ((List.range n).filter (fun i => i % s == 0)).length = (n + s - 1) / s := by
  intro n
  induction n with
  | zero =>
    simp only [List.range_zero, List.filter_nil, List.length_nil, Nat.zero_add]
    exact (Nat.div_eq_of_lt (by omega)).symm
  | succ n ih =>
    rw [List.range_succ, List.filter_append, List.length_append, ih]
    have h1 : n + 1 + s - 1 = n + s := by omega
    rw [h1, ceil_div_step hs n]
    by_cases h : n % s = 0
    · have hb : (n % s == 0) = true := by simpa using h
      simp [List.filter, hb, h]
    · have hb : (n % s == 0) = false := by simpa using h
      simp [List.filter, hb, h]

/-- The index filter over `enum` counts the same as the index filter over
`range`. -/
theorem enum_filter_length {α : Type} (l : List α) (s : Nat) :
    (l.enum.filter (fun p => p.1 % s == 0)).length
      = ((List.range l.length).filter (fun i => i % s == 0)).length := by
  conv_rhs => rw [← List.enum_map_fst l]
  rw [List.filter_map, List.length_map]
  rfl

/-- C3: for input size N and stride = max(1, N/50), the systematic sample has
size min(50, ceil(N/stride)) and contains the record at index 0; and for
N ≤ 50 the stride is 1 and the sample is the whole input in order. -/
theorem c3_sampling_spec {α : Type} (cleanedData : List α) :
    (sampleRecords cleanedData).length
        = min 50 ((cleanedData.length + max 1 (cleanedData.length / 50) - 1)
            / max 1 (cleanedData.length / 50))
    ∧ (∀ h0 : 0 < cleanedData.length,
        cleanedData.get ⟨0, h0⟩ ∈ sampleRecords cleanedData)
    ∧ (cleanedData.length ≤ 50 →
        max 1 (cleanedData.length / 50) = 1 ∧ sampleRecords cleanedData = cleanedData) := by
  have hs : 0 < max 1 (cleanedData.length / 50) := by omega
  refine ⟨?_, ?_, ?_⟩
  · rw [sampleRecords]
    rw [List.length_take, List.length_map, enum_filter_length, length_filter_mod hs]
  · intro h0
    match cleanedData, h0 with
    | a :: t, _ =>
      simp [sampleRecords, List.enum_cons]
  · intro h50
    have hdiv : cleanedData.length / 50 ≤ 1 := by
      calc cleanedData.length / 50 ≤ 50 / 50 := Nat.div_le_div_right h50
        _ = 1 := by norm_num
    have hstride : max 1 (cleanedData.length / 50) = 1 := by omega
    refine ⟨hstride, ?_⟩
    rw [sampleRecords, hstride]
    have hall : ∀ p ∈ cleanedData.enum, (p.1 % 1 == 0) = true := by
      intro p _
      simp [Nat.mod_one]
    rw [List.filter_eq_self.mpr hall, List.enum_map_snd, List.take_of_length_le h50]

/-- Witness for C3 on the concrete three-record input [10, 20, 30]. -/
theorem c3_sampling_witness :
    (sampleRecords [10, 20, 30]).length = 3
    ∧ (10 : Nat) ∈ sampleRecords [10, 20, 30]
    ∧ sampleRecords [10, 20, 30] = [10, 20, 30] := by
  obtain ⟨h1, h2, h3⟩ := c3_sampling_spec (α := Nat) [10, 20, 30]
  refine ⟨by simpa using h1, ?_, (h3 (by simp)).2⟩
  simpa using h2 (by simp)

/-! ## Object-reconstruction lemmas -/

/-- Lookup after an in-place overwrite of every entry with key `k`. -/
theorem recLookup_overwrite (k : String) (v : Int) (j : String) :
    ∀ m : List (String × Int),
      recLookup (m.map (fun p => if p.1 == k then (k, v) else p)) j
        = if j = k then (if m.any (fun p => p.1 == k) then some v else none)
          else recLookup m j := by
  intro m
  induction m with
  | nil => by_cases hjk : j = k <;> simp [recLookup, hjk]
  | cons a m ih =>
    by_cases hak : a.1 = k
    · by_cases hjk : j = k <;> by_cases haj : a.1 = j <;>
        simp_all [recLookup, List.find?_cons, beq_iff_eq, Bool.or_eq_true]
    · have hakb : (a.1 == k) = false := by simpa using hak
      rw [List.map_cons, if_neg (by simp [hakb]), List.any_cons, hakb, Bool.false_or]
      by_cases hjk : j = k <;> by_cases haj : a.1 = j <;>
        simp_all [recLookup, List.find?_cons, beq_iff_eq]

/-- Lookup after one JavaScript assignment: the assigned key now maps to the
assigned value; every other key is untouched. -/
theorem recLookup_objInsert (m : List (String × Int)) (k : String) (v : Int) (j : String) :
    recLookup (objInsert m k v) j = if j = k then some v else recLookup m j := by
  by_cases hany : (m.any fun p => p.1 == k) = true
  · rw [objInsert, if_pos hany, recLookup_overwrite, hany]
    simp
  · rw [objInsert, if_neg hany, recLookup, List.find?_append]
    have hnone : m.find? (fun p => p.1 == k) = none := by
      rw [List.find?_eq_none]
      intro x hx
      exact fun hxk => hany (List.any_eq_true.mpr ⟨x, hx, hxk⟩)
    by_cases hjk : j = k
    · subst hjk
      rw [hnone, Option.none_or]
      simp [List.find?_cons]
    · have hkj : (k == j) = false := by
        simp only [beq_eq_false_iff_ne, ne_eq]
        exact fun h => hjk h.symm
      simp [List.find?_cons, hkj, recLookup, hjk, Option.or_none]

/-- Lookup after folding the assignment loop from an arbitrary accumulator:
the last binding of the pair list wins, with the accumulator as fallback. -/
theorem recLookup_foldAssign (j : String) :
    ∀ (pairs m : List (String × Int)),
      recLookup (pairs.foldl (fun acc p => objInsert acc p.1 p.2) m) j
        = (lastBinding pairs j).or (recLookup m j) := by
  intro pairs
  induction pairs with
  | nil =>
    intro m
    simp [lastBinding, Option.none_or]
  | cons p rest ih =>
    intro m
    rw [List.foldl_cons, ih, recLookup_objInsert]
    simp only [lastBinding, List.reverse_cons, List.find?_append]
    cases hfind : rest.reverse.find? (fun x => x.1 == j) with
    | some q => simp [lastBinding, hfind, Option.or]
    | none =>
      by_cases hjp : j = p.1
      · subst hjp
        simp [lastBinding, hfind, List.find?_cons, Option.or]
      · have hpj : (p.1 == j) = false := by
          simp only [beq_eq_false_iff_ne, ne_eq]
          exact fun h => hjp h.symm
        simp [lastBinding, hfind, List.find?_cons, hpj, hjp, Option.or]

/-- Lookup on a reconstructed record is the last binding of the pair list. -/
theorem recLookup_buildRecord (pairs : List (String × Int)) (j : String) :
    recLookup (buildRecord pairs) j = lastBinding pairs j := by
  rw [buildRecord, recLookup_foldAssign]
  simp [recLookup, Option.or_none]

/-- One JavaScript assignment preserves key uniqueness. -/
theorem keys_nodup_objInsert (m : List (String × Int)) (k : String) (v : Int)
    (h : (m.map Prod.fst).Nodup) : ((objInsert m k v).map Prod.fst).Nodup := by
  by_cases hany : (m.any fun p => p.1 == k) = true
  · rw [objInsert, if_pos hany, List.map_map]
    have hkeys : (m.map (Prod.fst ∘ fun p => if p.1 == k then (k, v) else p)) = m.map Prod.fst := by
      refine List.map_congr_left (fun p _ => ?_)
      by_cases hp : (p.1 == k) = true
      · have hp1 : p.1 = k := by simpa using hp
        simp [Function.comp, hp, hp1]
      · simp [Function.comp, hp]
    rw [hkeys]
    exact h
  · rw [objInsert, if_neg hany, List.map_append, List.nodup_append]
    refine ⟨h, by simp, ?_⟩
    intro x hx hxk
    have hxk1 : x = k := by simpa using hxk
    subst hxk1
    obtain ⟨p, hpmem, hpfst⟩ := List.mem_map.mp hx
    have hanyf : (m.any fun q => q.1 == x) = false := by
      rw [List.any_eq_false]
      intro q hq hqx
      exact hany (List.any_eq_true.mpr ⟨q, hq, hqx⟩)
    exact List.any_eq_false.mp hanyf p hpmem (by simp [hpfst])

/-- The assignment fold preserves key uniqueness. -/
theorem keys_nodup_foldAssign :
    ∀ (pairs m : List (String × Int)), (m.map Prod.fst).Nodup →
      (((pairs.foldl (fun acc p => objInsert acc p.1 p.2) m).map Prod.fst)).Nodup := by
  intro pairs
  induction pairs with
  | nil => intro m h; simpa using h
  | cons p rest ih =>
    intro m h
    rw [List.foldl_cons]
    exact ih _ (keys_nodup_objInsert m p.1 p.2 h)

/-- A reconstructed record binds each key at most once. -/
theorem keys_nodup_buildRecord (pairs : List (String × Int)) :
    ((buildRecord pairs).map Prod.fst).Nodup :=
  keys_nodup_foldAssign pairs [] (by simp)

/-- C4: every segment in the collection returned by Discover-Segments
post-processing has status "Discovery", the freshly generated timestamp, no
manifest, and affinity scores reconstructed from the (key, value) pair list of
its raw segment; each output is a function of a raw response segment and the
clock alone, so no prior status or manifest data is carried over. -/
theorem c4_discovery_reset (now : Nat) (results : List RawSegment)
    (seg : ShopperSegment) (hmem : seg ∈ discoverSegmentsPost now results) :
    seg.status = "Discovery" ∧ seg.lastUpdated = now ∧ seg.manifest = none
    ∧ ∃ r ∈ results, seg = mapRawSegment now r
        ∧ seg.affinityScores = buildRecord r.affinityScores := by
  obtain ⟨r, hr, rfl⟩ := List.mem_map.mp hmem
  exact ⟨rfl, rfl, rfl, r, hr, rfl, rfl⟩

/-- Witness for C4 at the concrete raw segment `rawSegExample` and time 7. -/
theorem c4_discovery_reset_witness :
    (mapRawSegment 7 rawSegExample).status = "Discovery"
    ∧ (mapRawSegment 7 rawSegExample).lastUpdated = 7
    ∧ (mapRawSegment 7 rawSegExample).manifest = none := by
  have h := c4_discovery_reset 7 [rawSegExample] (mapRawSegment 7 rawSegExample)
    (by simp [discoverSegmentsPost])
  exact ⟨h.1, h.2.1, h.2.2.1⟩

/-- C10: the behavioralWeights mapping of DNA synthesis and the affinityScores
mapping of segment discovery are reconstructed by the same assignment fold;
the reconstructed record binds each appearing key exactly once (its key list
has no duplicates, and lookup yields the value of the LAST pair carrying the
key), and keys not in the pair list are absent. -/
theorem c10_record_bindings :
    (∀ (now : Nat) (raw : RawDomainDNA),
        (synthesizeDomainDNAPost now raw).behavioralWeights
          = buildRecord raw.behavioralWeights)
    ∧ (∀ (now : Nat) (rs : RawSegment),
        (mapRawSegment now rs).affinityScores = buildRecord rs.affinityScores)
    ∧ (∀ pairs : List (String × Int), ((buildRecord pairs).map Prod.fst).Nodup)
    ∧ (∀ (pairs : List (String × Int)) (k : String),
        recLookup (buildRecord pairs) k = lastBinding pairs k)
    ∧ (∀ (pairs : List (String × Int)) (k : String),
        (∀ p ∈ pairs, p.1 ≠ k) → recLookup (buildRecord pairs) k = none) := by
  refine ⟨fun _ _ => rfl, fun _ _ => rfl, keys_nodup_buildRecord, recLookup_buildRecord, ?_⟩
  intro pairs k h
  rw [recLookup_buildRecord, lastBinding]
  have hnone : pairs.reverse.find? (fun p => p.1 == k) = none := by
    rw [List.find?_eq_none]
    intro x hx
    simpa using h x (List.mem_reverse.mp hx)
  rw [hnone]
  rfl

/-- Witness for C10 at a pair list with a duplicate key. -/
theorem c10_record_bindings_witness :
    recLookup (buildRecord [("a", 1), ("b", 2), ("a", 3)]) "a" = some 3
    ∧ recLookup (buildRecord [("a", 1), ("b", 2), ("a", 3)]) "c" = none := by
  obtain ⟨-, -, -, h4, h5⟩ := c10_record_bindings
  refine ⟨?_, h5 _ _ (by decide)⟩
  rw [h4]
  decide

/-- Shape of a pipeline run whose DNA-synthesis call throws. -/
theorem handleCDL_dnaError {ρ : Type} (o : PipelineOracle) (now : Nat)
    (cleanedData : List ρ) (headers : List String) (s : AppState)
    (e : AppException) (hdna : o.dna = .error e) :
    handleCustomDataLoaded o now cleanedData headers s
      = applyFinally (applyCatch e
          { s with loading := true, error := none,
                   logs := addLog s.logs "Ingesting telemetry stream...",
                   progressStep := .parsing }) := by
  simp [handleCustomDataLoaded, hdna]

/-- Shape of a pipeline run whose Discover-Segments call throws: the DNA is
already adopted and persisted. -/
theorem handleCDL_discoverError {ρ : Type} (o : PipelineOracle) (now : Nat)
    (cleanedData : List ρ) (headers : List String) (s : AppState)
    (rawDna : RawDomainDNA) (hdna : o.dna = .ok rawDna)
    (e : AppException) (hdisc : o.discover = .error e) :
    handleCustomDataLoaded o now cleanedData headers s
      = applyFinally (applyCatch e
          { s with loading := true, error := none,
                   logs := addLog s.logs "Ingesting telemetry stream...",
                   progressStep := .analyzing,
                   learnedContext := some (synthesizeDomainDNAPost now rawDna),
                   storedDna := some (synthesizeDomainDNAPost now rawDna) }) := by
  simp [handleCustomDataLoaded, hdna, hdisc]

/-- Shape of a pipeline run whose review-synthesis call throws: segments are
not yet replaced. -/
theorem handleCDL_reviewsError {ρ : Type} (o : PipelineOracle) (now : Nat)
    (cleanedData : List ρ) (headers : List String) (s : AppState)
    (rawDna : RawDomainDNA) (hdna : o.dna = .ok rawDna)
    (rawSegments : List RawSegment) (hdisc : o.discover = .ok rawSegments)
    (e : AppException) (hrev : o.reviews = .error e) :
    handleCustomDataLoaded o now cleanedData headers s
      = applyFinally (applyCatch e
          { s with loading := true, error := none,
                   logs := addLog s.logs "Ingesting telemetry stream...",
                   progressStep := .analyzing,
                   learnedContext := some (synthesizeDomainDNAPost now rawDna),
                   storedDna := some (synthesizeDomainDNAPost now rawDna) }) := by
  simp [handleCustomDataLoaded, hdna, hdisc, hrev]

/-- Shape of a pipeline run in which discovery returns the empty array: the
stores are already replaced with the empty collection, and the TypeError of
`discovered[0].id` reaches the catch block. -/
theorem handleCDL_emptyDiscovery {ρ : Type} (o : PipelineOracle) (now : Nat)
    (cleanedData : List ρ) (headers : List String) (s : AppState)
    (rawDna : RawDomainDNA) (hdna : o.dna = .ok rawDna)
    (rawSegments : List RawSegment) (hdisc : o.discover = .ok rawSegments)
    (contextReviews : List Review) (hrev : o.reviews = .ok contextReviews)
    (hempty : discoverSegmentsPost now rawSegments = []) :
    handleCustomDataLoaded o now cleanedData headers s
      = applyFinally (applyCatch (.otherError "TypeError: Cannot read properties of undefined")
          { s with loading := true, error := none,
                   logs := addLog s.logs "Ingesting telemetry stream...",
                   progressStep := .analyzing,
                   learnedContext := some (synthesizeDomainDNAPost now rawDna),
                   storedDna := some (synthesizeDomainDNAPost now rawDna),
                   segments := [], activeReviews := contextReviews,
                   storedSegments := some [],
                   storedReviews := some contextReviews }) := by
  simp [handleCustomDataLoaded, hdna, hdisc, hrev, hempty]

/-- Shape of a pipeline run in which all steps up to discovery succeed with a
nonempty segment collection: the stores are replaced, the first discovered
segment is selected, and the run ends in the recommendation refresh. -/
theorem handleCDL_success {ρ : Type} (o : PipelineOracle) (now : Nat)
    (cleanedData : List ρ) (headers : List String) (s : AppState)
    (rawDna : RawDomainDNA) (hdna : o.dna = .ok rawDna)
    (rawSegments : List RawSegment) (hdisc : o.discover = .ok rawSegments)
    (contextReviews : List Review) (hrev : o.reviews = .ok contextReviews)
    (first : ShopperSegment) (rest : List ShopperSegment)
    (hsplit : discoverSegmentsPost now rawSegments = first :: rest) :
    handleCustomDataLoaded o now cleanedData headers s
      = applyFinally (fetchInsights o.recs
          { s with loading := true, error := none,
                   logs := addLog (addLog s.logs "Ingesting telemetry stream...")
                     "Synthesis complete.",
                   progressStep := .analyzing,
                   learnedContext := some (synthesizeDomainDNAPost now rawDna),
                   storedDna := some (synthesizeDomainDNAPost now rawDna),
                   segments := first :: rest, activeReviews := contextReviews,
                   storedSegments := some (first :: rest),
                   storedReviews := some contextReviews,
                   selectedSegmentId := first.id }) := by
  simp [handleCustomDataLoaded, hdna, hdisc, hrev, hsplit]

/-- C5: whichever pipeline step throws the distinguished QuotaError, the run
skips the remaining steps (the result does not depend on the outcomes of the
later calls), surfaces a quota-type error with the fixed message, returns to
idle with loading cleared, and retains exactly the progress persisted before
the failing step. -/
theorem c5_quota_aborts_pipeline {ρ : Type} (o : PipelineOracle) (now : Nat)
    (cleanedData : List ρ) (headers : List String) (s : AppState) :
    (o.dna = .error (.quotaError quotaExceededMessage) →
      (let r := handleCustomDataLoaded o now cleanedData headers s
       r.error = some { kind := .quota, message := quotaExceededMessage }
       ∧ r.progressStep = .idle ∧ r.loading = false
       ∧ r.learnedContext = s.learnedContext ∧ r.storedDna = s.storedDna
       ∧ r.segments = s.segments ∧ r.activeReviews = s.activeReviews
       ∧ r.storedSegments = s.storedSegments ∧ r.storedReviews = s.storedReviews
       ∧ r.selectedSegmentId = s.selectedSegmentId
       ∧ r.recommendations = s.recommendations
       ∧ ∀ o2 : PipelineOracle, o2.dna = o.dna →
           handleCustomDataLoaded o2 now cleanedData headers s
             = handleCustomDataLoaded o now cleanedData headers s))
    ∧ (∀ rawDna, o.dna = .ok rawDna →
        o.discover = .error (.quotaError quotaExceededMessage) →
      (let r := handleCustomDataLoaded o now cleanedData headers s
       r.error = some { kind := .quota, message := quotaExceededMessage }
       ∧ r.progressStep = .idle ∧ r.loading = false
       ∧ r.learnedContext = some (synthesizeDomainDNAPost now rawDna)
       ∧ r.storedDna = some (synthesizeDomainDNAPost now rawDna)
       ∧ r.segments = s.segments ∧ r.activeReviews = s.activeReviews
       ∧ r.storedSegments = s.storedSegments ∧ r.storedReviews = s.storedReviews
       ∧ r.selectedSegmentId = s.selectedSegmentId
       ∧ r.recommendations = s.recommendations
       ∧ ∀ o2 : PipelineOracle, o2.dna = o.dna → o2.discover = o.discover →
           handleCustomDataLoaded o2 now cleanedData headers s
             = handleCustomDataLoaded o now cleanedData headers s))
    ∧ (∀ rawDna rawSegments, o.dna = .ok rawDna → o.discover = .ok rawSegments →
        o.reviews = .error (.quotaError quotaExceededMessage) →
      (let r := handleCustomDataLoaded o now cleanedData headers s
       r.error = some { kind := .quota, message := quotaExceededMessage }
       ∧ r.progressStep = .idle ∧ r.loading = false
       ∧ r.learnedContext = some (synthesizeDomainDNAPost now rawDna)
       ∧ r.storedDna = some (synthesizeDomainDNAPost now rawDna)
       ∧ r.segments = s.segments ∧ r.activeReviews = s.activeReviews
       ∧ r.storedSegments = s.storedSegments ∧ r.storedReviews = s.storedReviews
       ∧ r.selectedSegmentId = s.selectedSegmentId
       ∧ r.recommendations = s.recommendations
       ∧ ∀ o2 : PipelineOracle, o2.dna = o.dna → o2.discover = o.discover →
           o2.reviews = o.reviews →
           handleCustomDataLoaded o2 now cleanedData headers s
             = handleCustomDataLoaded o now cleanedData headers s))
    ∧ (∀ rawDna rawSegments first rest contextReviews, o.dna = .ok rawDna →
        o.discover = .ok rawSegments →
        discoverSegmentsPost now rawSegments = first :: rest →
        o.reviews = .ok contextReviews →
        o.recs = .error (.quotaError quotaExceededMessage) →
      (let r := handleCustomDataLoaded o now cleanedData headers s
       r.error = some { kind := .quota, message := quotaExceededMessage }
       ∧ r.progressStep = .idle ∧ r.loading = false
       ∧ r.learnedContext = some (synthesizeDomainDNAPost now rawDna)
       ∧ r.storedDna = some (synthesizeDomainDNAPost now rawDna)
       ∧ r.segments = first :: rest ∧ r.activeReviews = contextReviews
       ∧ r.storedSegments = some (first :: rest)
       ∧ r.storedReviews = some contextReviews
       ∧ r.selectedSegmentId = first.id
       ∧ r.recommendations = s.recommendations)) := by
  refine ⟨?_, ?_, ?_, ?_⟩
  · intro hdna
    rw [handleCDL_dnaError o now cleanedData headers s _ hdna]
    refine ⟨rfl, rfl, rfl, rfl, rfl, rfl, rfl, rfl, rfl, rfl, rfl, ?_⟩
    intro o2 h2
    rw [handleCDL_dnaError o2 now cleanedData headers s _ (h2.trans hdna)]
  · intro rawDna hdna hdisc
    rw [handleCDL_discoverError o now cleanedData headers s rawDna hdna _ hdisc]
    refine ⟨rfl, rfl, rfl, rfl, rfl, rfl, rfl, rfl, rfl, rfl, rfl, ?_⟩
    intro o2 h2 h3
    rw [handleCDL_discoverError o2 now cleanedData headers s rawDna (h2.trans hdna)
          _ (h3.trans hdisc)]
  · intro rawDna rawSegments hdna hdisc hrev
    rw [handleCDL_reviewsError o now cleanedData headers s rawDna hdna rawSegments hdisc
          _ hrev]
    refine ⟨rfl, rfl, rfl, rfl, rfl, rfl, rfl, rfl, rfl, rfl, rfl, ?_⟩
    intro o2 h2 h3 h4
    rw [handleCDL_reviewsError o2 now cleanedData headers s rawDna (h2.trans hdna)
          rawSegments (h3.trans hdisc) _ (h4.trans hrev)]
  · intro rawDna rawSegments first rest contextReviews hdna hdisc hsplit hrev hrecs
    rw [handleCDL_success o now cleanedData headers s rawDna hdna rawSegments hdisc
          contextReviews hrev first rest hsplit, hrecs]
    exact ⟨rfl, rfl, rfl, rfl, rfl, rfl, rfl, rfl, rfl, rfl, rfl⟩

/-- Witness for C5: the concrete oracle whose DNA call throws the QuotaError,
run from the concrete example state. -/
theorem c5_quota_aborts_witness :
    (handleCustomDataLoaded oracleQuotaOnDna 9 ([] : List Nat) [] appStateExample).error
        = some { kind := .quota, message := quotaExceededMessage }
    ∧ (handleCustomDataLoaded oracleQuotaOnDna 9 ([] : List Nat) [] appStateExample).progressStep
        = .idle
    ∧ (handleCustomDataLoaded oracleQuotaOnDna 9 ([] : List Nat) [] appStateExample).segments
        = appStateExample.segments := by
  have h := (c5_quota_aborts_pipeline oracleQuotaOnDna 9 ([] : List Nat) [] appStateExample).1 rfl
  exact ⟨h.1, h.2.1, h.2.2.2.2.2.1⟩

/-- C6: when Discover-Segments returns the empty array, the pipeline run
terminates normally (the TypeError thrown by `discovered[0].id` is caught),
no error is surfaced, the run returns to idle, the selection is unchanged, and
no segment is active (the segment collection is now empty). -/
theorem c6_empty_discovery_graceful {ρ : Type} (o : PipelineOracle) (now : Nat)
    (cleanedData : List ρ) (headers : List String) (s : AppState)
    (rawDna : RawDomainDNA) (hdna : o.dna = .ok rawDna)
    (hdisc : o.discover = .ok ([] : List RawSegment))
    (contextReviews : List Review) (hrev : o.reviews = .ok contextReviews) :
    let r := handleCustomDataLoaded o now cleanedData headers s
    r.error = none ∧ r.progressStep = .idle ∧ r.loading = false
    ∧ r.segments = [] ∧ r.storedSegments = some []
    ∧ r.selectedSegmentId = s.selectedSegmentId
    ∧ r.recommendations = s.recommendations
    ∧ activeSegment r = none := by
  rw [handleCDL_emptyDiscovery o now cleanedData headers s rawDna hdna [] hdisc
        contextReviews hrev rfl]
  refine ⟨rfl, rfl, rfl, rfl, rfl, rfl, rfl, ?_⟩
  simp [activeSegment, applyFinally, applyCatch]

/-- Witness for C6 at the concrete empty-discovery oracle. -/
theorem c6_empty_discovery_witness :
    (handleCustomDataLoaded oracleEmptyDiscovery 9 ([] : List Nat) [] appStateExample).segments = []
    ∧ (handleCustomDataLoaded oracleEmptyDiscovery 9 ([] : List Nat) [] appStateExample).error = none
    ∧ activeSegment (handleCustomDataLoaded oracleEmptyDiscovery 9 ([] : List Nat) [] appStateExample)
        = none := by
  have h := c6_empty_discovery_graceful oracleEmptyDiscovery 9 ([] : List Nat) []
    appStateExample dnaRawExample rfl rfl [reviewExample] rfl
  exact ⟨h.2.2.2.1, h.1, h.2.2.2.2.2.2.2⟩

/-- C7: when a deployment attempt (status update to "Active Strategy" on an
existing segment) fails to generate a manifest, the segment collection is left
unchanged, a log entry is emitted, and no error state, toast or loading change
is propagated. -/
theorem c7_deployment_failure_nonfatal (s : AppState) (id : String)
    (updates : SegmentUpdates) (e : AppException) (seg : ShopperSegment)
    (hfind : s.segments.find? (fun t => t.id == id) = some seg)
    (hstatus : updates.status = some "Active Strategy") :
    let r := handleSegmentUpdate (.error e) id updates s
    r.segments = s.segments ∧ r.error = s.error
    ∧ r.deploymentToast = s.deploymentToast ∧ r.loading = s.loading
    ∧ r.learnedContext = s.learnedContext ∧ r.progressStep = s.progressStep
    ∧ r.logs = addLog (addLog s.logs "DEPLOYMENT INITIATED: Synthesizing Tactical Manifest.")
        "DEPLOYMENT FAILED: AI synthesis interrupted." := by
  simp [handleSegmentUpdate, hfind, hstatus]

/-- Witness for C7 at the concrete example state and a failing manifest call. -/
theorem c7_deployment_failure_witness :
    (handleSegmentUpdate (.error (.otherError "boom")) "seg-1"
        { status := some "Active Strategy", name := none, manifest := none }
        appStateExample).segments = appStateExample.segments
    ∧ (handleSegmentUpdate (.error (.otherError "boom")) "seg-1"
        { status := some "Active Strategy", name := none, manifest := none }
        appStateExample).error = none
    ∧ (handleSegmentUpdate (.error (.otherError "boom")) "seg-1"
        { status := some "Active Strategy", name := none, manifest := none }
        appStateExample).deploymentToast = none := by
  have h := c7_deployment_failure_nonfatal appStateExample "seg-1"
    { status := some "Active Strategy", name := none, manifest := none }
    (.otherError "boom") segExample (by rfl) rfl
  exact ⟨h.1, h.2.1, h.2.2.1⟩

/-- C8: three selection changes, each strictly within 500 time units of the
previous one, issue exactly one profiling request pair, for the last selected
segment only; the two superseded timers are cancelled and never fire. -/
theorem c8_debounce_three_changes (t1 t2 t3 : Nat) (s1 s2 s3 : String)
    (h12 : t2 < t1 + 500) (h23 : t3 < t2 + 500) :
    debounceFires [(t1, s1), (t2, s2), (t3, s3)] = [(t3, s3)]
    ∧ issuedPairs [(t1, s1), (t2, s2), (t3, s3)]
        = [{ personaTarget := s3, frictionTarget := s3 }] := by
  have hfires : debounceFires [(t1, s1), (t2, s2), (t3, s3)] = [(t3, s3)] := by
    simp [debounceFires, h12, h23]
  exact ⟨hfires, by simp [issuedPairs, hfires]⟩

/-- Witness for C8 at changes at times 0, 100, 200. -/
theorem c8_debounce_witness :
    debounceFires [(0, "A"), (100, "B"), (200, "C")] = [(200, "C")]
    ∧ issuedPairs [(0, "A"), (100, "B"), (200, "C")]
        = [{ personaTarget := "C", frictionTarget := "C" }] :=
  c8_debounce_three_changes 0 100 200 "A" "B" "C" (by omega) (by omega)

/-- C9 is violated by the code: the profiling effect applies arriving results
unconditionally (lines 137-142 of the App controller contain no tag check),
so a request pair issued for segment "A" — its debounce timer fired at time
500, before the selection moved to "B" at time 600 — still overwrites the
persona and friction state when its responses arrive while "B" is selected.
The final applied origin "A" differs from the active selection "B". -/
theorem c9_stale_result_applied :
    (let s0 : ProfState := { selectedSegmentId := "A", personaDetails := none,
                             frictionData := none, appliedOrigin := none }
     let r := profRun s0 [.select "B", .arrive "A" personaExample frictionExample]
     r.selectedSegmentId = "B" ∧ r.personaDetails = some personaExample
     ∧ r.frictionData = some frictionExample ∧ r.appliedOrigin = some "A"
     ∧ r.appliedOrigin ≠ some r.selectedSegmentId)
    ∧ debounceFires [(0, "A"), (600, "B")] = [(0, "A"), (600, "B")] := by
  refine ⟨⟨rfl, rfl, rfl, rfl, by decide⟩, by decide⟩

end AffinityGraph
